import Mathlib

/-! Shallow embedding of the productfinder scripts
(`scripts/trigger_missing_embeddings.py` and `scripts/warmup_image_cache.py`).

HTTP calls are modelled by an `HttpResult` value describing what the single
underlying `requests` call does in the world under consideration: either a
response with a status code and a parsed body, or one of the exception kinds
the scripts distinguish in their `except` clauses.  `httpCall` combines the
request with `raise_for_status`, which (per the `requests` library) raises
`HTTPError` exactly for statuses 400-599.
-/

namespace ProductFinder

/-- Result of one underlying `requests.get` / `requests.post` call:
a delivered response (status code plus parsed JSON body of type `α`), or one
of the exception kinds the scripts catch. `otherError` stands for any
exception not in the named classes (the bare `except Exception` case). -/
inductive HttpResult (α : Type) where
  | response (status : Nat) (body : α)
  | timeout
  | connectionError
  | chunkedEncodingError
  | incompleteRead
  | otherError
  deriving DecidableEq, Repr

/-- Python exception as observed by the scripts' `except` clauses. -/
inductive PyExc where
  | httpError (status : Nat)
  | timeout
  | connectionError
  | chunkedEncodingError
  | incompleteRead
  | other
  deriving DecidableEq, Repr

/-- One `requests` call followed by `response.raise_for_status()`:
`raise_for_status` raises `HTTPError` exactly for client-error (4xx) and
server-error (5xx) statuses; all other statuses pass through and the body is
returned. Transport failures surface as the corresponding exceptions. -/
def httpCall {α : Type} : HttpResult α → Except PyExc α
  | .response s b => if 400 ≤ s ∧ s ≤ 599 then .error (.httpError s) else .ok b
  | .timeout => .error .timeout
  | .connectionError => .error .connectionError
  | .chunkedEncodingError => .error .chunkedEncodingError
  | .incompleteRead => .error .incompleteRead
  | .otherError => .error .other

/- ------------------------------------------------------------------
   trigger_missing_embeddings.py
   ------------------------------------------------------------------ -/

/-- A storage object as the script reads it: its `id`, its `collection_id`,
and the set of keys present in its `ai_context_metadata` dict. -/
structure StorageObject where
  id : Nat
  collection_id : String
  ai_context_metadata : List String
  deriving DecidableEq, Repr

/-- Outcome of `fetch_object`: the parsed object, `None` (absent), or a
propagated `HTTPError` carrying the status code. -/
inductive FetchOutcome where
  | found (obj : StorageObject)
  | absent
  | raised (status : Nat)
  deriving DecidableEq, Repr

/-- Embedding of `fetch_object` (trigger_missing_embeddings.py lines 21-35):
on success return the parsed object; on `HTTPError` return `None` when the
status is 404 and re-raise otherwise; on any other exception return `None`. -/
def fetch_object (resp : HttpResult StorageObject) : FetchOutcome :=
  match httpCall resp with
  | .ok body => .found body
  | .error (.httpError s) => if s = 404 then .absent else .raised s
  | .error _ => .absent

/-- Loop body of `fetch_all_objects_by_range`: walk the id list in order,
fetching each id; a propagated `HTTPError` aborts the whole fetch, an absent
object is skipped, and a found object is kept only when its `collection_id`
is `oneal_catalog`. `world` maps each object id to what its HTTP fetch does. -/
def fetchRangeGo (world : Nat → HttpResult StorageObject) :
    List Nat → List StorageObject → Except Nat (List StorageObject)
  | [], acc => .ok acc.reverse
  | i :: rest, acc =>
    match fetch_object (world i) with
    | .raised s => .error s
    | .absent => fetchRangeGo world rest acc
    | .found obj =>
      if obj.collection_id = "oneal_catalog" then fetchRangeGo world rest (obj :: acc)
      else fetchRangeGo world rest acc

/-- Embedding of `fetch_all_objects_by_range` (lines 37-54): probe every id in
`[start_id, end_id]` in order. -/
def fetch_all_objects_by_range (world : Nat → HttpResult StorageObject)
    (start_id end_id : Nat) : Except Nat (List StorageObject) :=
  fetchRangeGo world (List.range' start_id (end_id + 1 - start_id)) []

/-- Embedding of `has_full_ai_analysis` (lines 56-66): all three keys
`visual_analysis`, `product_analysis`, `embedding_info` must be present in
`ai_context_metadata`. -/
def has_full_ai_analysis (obj : StorageObject) : Bool :=
  obj.ai_context_metadata.contains "visual_analysis" &&
  obj.ai_context_metadata.contains "product_analysis" &&
  obj.ai_context_metadata.contains "embedding_info"

/-- Embedding of `trigger_embedding` (lines 68-84): a single POST inside one
`try`; success gives `(True, object_id)` and every exception, of any kind, is
caught by the bare `except Exception` and gives `(False, object_id)`.
There is no retry loop in this script. -/
def trigger_embedding (resp : HttpResult Unit) (object_id : Nat) : Bool × Nat :=
  match httpCall resp with
  | .ok _ => (true, object_id)
  | .error _ => (false, object_id)

/- ------------------------------------------------------------------
   warmup_image_cache.py
   ------------------------------------------------------------------ -/

/-- Observable action of one pass of `warmup_image`'s retry loop: a
`requests.get` invocation at a given attempt index, or a `time.sleep(1.0)`. -/
inductive WarmupAction where
  | call (attempt : Nat)
  | sleep
  deriving DecidableEq, Repr

/-- Number of `requests.get` invocations recorded in a trace. -/
def countCalls (tr : List WarmupAction) : Nat :=
  (tr.filter fun a => match a with | .call _ => true | .sleep => false).length

/-- Retry loop of `warmup_image` (warmup_image_cache.py lines 99-131), run
with `remaining` iterations left of `for attempt in range(n)`.
Per iteration: a successful call returns `True` immediately; an `HTTPError`
retries immediately (no sleep) when the status is 502 or 504 and attempts
remain (`attempt < n - 1`), else returns `False`; every other exception —
`Timeout`/`ConnectionError`/`ChunkedEncodingError`, `IncompleteRead`, and the
bare `except Exception` (the three handlers differ only in their log message)
— sleeps 1.0s and retries when attempts remain, else returns `False`.
If the loop exhausts (only possible for `n = 0`) the function falls through
to the trailing `return (False, ...)`. Returns the success flag and the trace
of calls and sleeps. -/
def warmupLoop (n : Nat) (perform : Nat → HttpResult Unit) :
    Nat → Nat → Bool × List WarmupAction
  | _, 0 => (false, [])
  | attempt, r + 1 =>
    match httpCall (perform attempt) with
    | .ok _ => (true, [WarmupAction.call attempt])
    | .error (.httpError s) =>
      if (s = 502 ∨ s = 504) ∧ attempt < n - 1 then
        ((warmupLoop n perform (attempt + 1) r).1,
          WarmupAction.call attempt :: (warmupLoop n perform (attempt + 1) r).2)
      else
        (false, [WarmupAction.call attempt])
    | .error _ =>
      if attempt < n - 1 then
        ((warmupLoop n perform (attempt + 1) r).1,
          WarmupAction.call attempt :: WarmupAction.sleep ::
            (warmupLoop n perform (attempt + 1) r).2)
      else
        (false, [WarmupAction.call attempt])

/-- The hardcoded `max_retries = 3` of `warmup_image`. -/
def max_retries : Nat := 3

/-- `warmup_image`'s retry loop generalised over the attempt bound `n`
(`max_retries` in the script); `perform k` is what the HTTP call of attempt
`k` does. -/
def warmup_image_retries (n : Nat) (perform : Nat → HttpResult Unit) :
    Bool × List WarmupAction :=
  warmupLoop n perform 0 n

/-- Embedding of `warmup_image` (lines 76-131) at its hardcoded
`max_retries = 3`, abstracted over the descriptor fields (which only feed the
URL parameters and log messages). -/
def warmup_image (perform : Nat → HttpResult Unit) : Bool × List WarmupAction :=
  warmup_image_retries max_retries perform

/-- A media item of a product, as read from the products payload:
`storage_id = 0` models a missing/None/0 value (falsy in Python). -/
structure MediaItem where
  storage_id : Nat
  role : String
  deriving DecidableEq, Repr

/-- A product as read from the O'Neal API payload. -/
structure Product where
  id : String
  media : List MediaItem
  deriving DecidableEq, Repr

/-- One entry of the `media_map` ordered dict built by
`collect_media_entries`: keyed by `storage_id`, carrying the product id and
the media role. -/
structure MediaEntry where
  storage_id : Nat
  product_id : String
  media_role : String
  deriving DecidableEq, Repr

/-- Inner media loop of `collect_media_entries`: skip media items whose
`storage_id` is falsy or already collected (`continue`), and stop at the
first acceptable one (`break` after inserting). -/
def firstNewMedia (seenIds : List Nat) : List MediaItem → Option MediaItem
  | [] => none
  | m :: rest =>
    if m.storage_id = 0 ∨ m.storage_id ∈ seenIds then firstNewMedia seenIds rest
    else some m

/-- Outer product loop of `collect_media_entries`, threading the accumulated
entries (most recent first; reversed at the end to match insertion order). -/
def collectEntriesGo : List Product → List MediaEntry → List MediaEntry
  | [], acc => acc.reverse
  | p :: rest, acc =>
    match firstNewMedia (acc.map (fun e => e.storage_id)) p.media with
    | none => collectEntriesGo rest acc
    | some m =>
      collectEntriesGo rest ({ storage_id := m.storage_id, product_id := p.id,
                               media_role := m.role } :: acc)

/-- Embedding of `collect_media_entries` (warmup_image_cache.py lines 54-74). -/
def collect_media_entries (products : List Product) : List MediaEntry :=
  collectEntriesGo products []

/- ------------------------------------------------------------------
   Dispatch, aggregation and the two main() functions
   ------------------------------------------------------------------ -/

/-- Running counters of the result-collection loop in both `main` functions. -/
structure Summary where
  succeeded : Nat
  failed : Nat
  deriving DecidableEq, Repr

/-- One iteration of the `as_completed` loop: increment `success_count` when
the outcome is a success, else increment `failed_count`. -/
def observe (s : Summary) (success : Bool) : Summary :=
  if success then { s with succeeded := s.succeeded + 1 }
  else { s with failed := s.failed + 1 }

/-- The whole result-collection loop: fold `observe` over the outcomes in
their arrival order, starting from zeroed counters. -/
def runSummary (results : List Bool) : Summary :=
  results.foldl observe { succeeded := 0, failed := 0 }

/-- How a `main` run ends: `aborted code` models `sys.exit(code)` before
dispatch, `noop` models an early plain `return` before dispatch, and
`completed s` models running the pool to completion with final summary `s`. -/
inductive RunResult where
  | aborted (code : Nat)
  | noop
  | completed (s : Summary)
  deriving DecidableEq, Repr

/-- The ids the trigger script submits: ids of fetched objects lacking full
AI analysis, in discovery order (lines 97-105). -/
def missing_analysis (objects : List StorageObject) : List Nat :=
  (objects.filter fun o => !(has_full_ai_analysis o)).map (fun o => o.id)

/-- Embedding of `main` of trigger_missing_embeddings.py (lines 86-145) after
discovery: `sys.exit(1)` when no objects were found; plain `return` when none
is missing analysis; otherwise dispatch one `trigger_embedding` per missing
id and count outcomes. `embedResult id` is whether embedding id succeeds;
outcomes arrive in some completion order, which cannot change the counts
(see `summary_counts_conserved`), so submission order is used here. -/
def trigger_main (objects : List StorageObject) (embedResult : Nat → Bool) :
    RunResult :=
  if objects.isEmpty then .aborted 1
  else if (missing_analysis objects).isEmpty then .noop
  else .completed (runSummary ((missing_analysis objects).map embedResult))

/-- CLI arguments of warmup_image_cache.py. -/
structure WarmupArgs where
  no_highres : Bool
  no_refresh : Bool
  workers : Nat
  trim : Bool
  deriving DecidableEq, Repr

/-- Sizes warmed per media entry: always 130, plus 1300 unless --no-highres
(lines 169-171, with `BASE_SIZES = [130]` and `HIGH_RES_SIZE = 1300`). -/
def warmup_sizes (no_highres : Bool) : List Nat :=
  if no_highres then [130] else [130, 1300]

/-- One task tuple built by `main` (lines 174-178): `refresh` records
`index == 0` (only the first size of an entry triggers a cache refresh). -/
structure WarmupTask where
  product_id : String
  storage_id : Nat
  size : Nat
  refresh : Bool
  deriving DecidableEq, Repr

/-- The task list: for each media entry, one task per size, the first size
flagged for refresh. -/
def warmup_tasks (entries : List MediaEntry) (sizes : List Nat) :
    List WarmupTask :=
  entries.flatMap fun e =>
    sizes.enum.map fun p =>
      { product_id := e.product_id, storage_id := e.storage_id,
        size := p.2, refresh := p.1 = 0 }

/-- Embedding of `main` of warmup_image_cache.py (lines 133-218) after the
products fetch: plain `return` when no storage-backed media entries exist;
otherwise dispatch one `warmup_image` per task and count outcomes.
`performResult t` is whether task `t`'s warmup (after its retries) succeeds. -/
def warmup_main (args : WarmupArgs) (products : List Product)
    (performResult : WarmupTask → Bool) : RunResult :=
  let entries := collect_media_entries products
  if entries.isEmpty then .noop
  else .completed
    (runSummary ((warmup_tasks entries (warmup_sizes args.no_highres)).map
      performResult))

/- ------------------------------------------------------------------
   Worker pool (ThreadPoolExecutor semantics)
   ------------------------------------------------------------------ -/

/-- Worker-pool count of the trigger script: `ThreadPoolExecutor(max_workers=5)`
(line 121). -/
def trigger_workers : Nat := 5

/-- Worker-pool count of the warmup script:
`ThreadPoolExecutor(max_workers=max(1, args.workers))` (line 191). -/
def warmup_workers (args : WarmupArgs) : Nat := max 1 args.workers

/-- State of a fixed-size worker pool run: descriptors not yet started (in
submission order), descriptors currently executing in a worker thread, and
completed descriptors (in completion order). -/
structure PoolState where
  pending : List Nat
  inFlight : List Nat
  completed : List Nat
  deriving DecidableEq, Repr

/-- Small-step semantics of `ThreadPoolExecutor(max_workers=workers)`: a
submitted call starts executing only when a worker thread is free, i.e. when
fewer than `workers` calls are in flight (each of the `workers` threads runs
one call at a time); tasks are started in submission order; any in-flight
call may finish, in any order. -/
inductive PoolStep (workers : Nat) : PoolState → PoolState → Prop
  | start (s : PoolState) (d : Nat) (rest : List Nat) :
      s.pending = d :: rest →
      s.inFlight.length < workers →
      PoolStep workers s
        { pending := rest, inFlight := d :: s.inFlight, completed := s.completed }
  | finish (s : PoolState) (d : Nat) :
      d ∈ s.inFlight →
      PoolStep workers s
        { pending := s.pending, inFlight := s.inFlight.erase d,
          completed := d :: s.completed }

/-- A pool state reachable from submitting `descriptors` to an idle pool of
`workers` threads. -/
def poolReachable (workers : Nat) (descriptors : List Nat) (s : PoolState) : Prop :=
  Relation.ReflTransGen (PoolStep workers)
    { pending := descriptors, inFlight := [], completed := [] } s

/- ------------------------------------------------------------------
   Statement-level helper definitions
   ------------------------------------------------------------------ -/

/-- Retryable failure kinds named by the spec: gateway statuses 502/504 and
the transport-level exceptions (timeout, connection reset, truncated read).
The uncategorized `otherError` is deliberately not included. -/
def isRetryableFailure : HttpResult Unit → Bool
  | .response s _ => s == 502 || s == 504
  | .timeout => true
  | .connectionError => true
  | .chunkedEncodingError => true
  | .incompleteRead => true
  | .otherError => false

/-- Actions one retried (non-final) attempt contributes to the trace: a
gateway-class `HTTPError` retries with just the call, every other retried
failure also sleeps 1.0s after its call. -/
def retryTrace (x : HttpResult Unit) (a : Nat) : List WarmupAction :=
  match x with
  | .response _ _ => [WarmupAction.call a]
  | _ => [WarmupAction.call a, WarmupAction.sleep]

/-- A sample storage object used by concrete witnesses. -/
def sample_obj : StorageObject :=
  { id := 42, collection_id := "oneal_catalog", ai_context_metadata := [] }

/-- A sample probing world for concrete witnesses: object id 2 times out,
every other id is absent (404). -/
def probe_world : Nat → HttpResult StorageObject :=
  fun j => if j = 2 then HttpResult.timeout else HttpResult.response 404 sample_obj

/-- Sample CLI arguments (the defaults) used by concrete witnesses. -/
def sample_args : WarmupArgs :=
  { no_highres := false, no_refresh := false, workers := 3, trim := false }

/-- Sample CLI arguments with --no-highres and --no-refresh set. -/
def sample_args_lowres : WarmupArgs :=
  { no_highres := true, no_refresh := true, workers := 1, trim := false }

/-- A sample object with no AI metadata at all. -/
def sample_missing_obj : StorageObject :=
  { id := 1, collection_id := "oneal_catalog", ai_context_metadata := [] }

/-- A sample object carrying all three AI-analysis keys. -/
def sample_full_obj : StorageObject :=
  { id := 1, collection_id := "oneal_catalog",
    ai_context_metadata :=
      ["visual_analysis", "product_analysis", "embedding_info"] }

/-- A sample product with one storage-backed media item. -/
def sample_product : Product :=
  { id := "p1", media := [{ storage_id := 7, role := "hero" }] }

/- ------------------------------------------------------------------
   Helper lemmas
   ------------------------------------------------------------------ -/

theorem countCalls_call (a : Nat) (tr : List WarmupAction) :
    countCalls (WarmupAction.call a :: tr) = countCalls tr + 1 := by
  simp [countCalls]

theorem countCalls_retryTrace (x : HttpResult Unit) (a : Nat)
    (tr : List WarmupAction) :
    countCalls (retryTrace x a ++ tr) = countCalls tr + 1 := by
  cases x <;> simp [retryTrace, countCalls]

theorem warmupLoop_succ_ok (n : Nat) (perform : Nat → HttpResult Unit) (a r : Nat)
    (h : httpCall (perform a) = Except.ok ()) :
    warmupLoop n perform a (r + 1) = (true, [WarmupAction.call a]) := by
  simp only [warmupLoop, h]

theorem warmupLoop_succ_httpError (n : Nat) (perform : Nat → HttpResult Unit)
    (a r s : Nat) (h : httpCall (perform a) = Except.error (PyExc.httpError s)) :
    warmupLoop n perform a (r + 1) =
      if (s = 502 ∨ s = 504) ∧ a < n - 1 then
        ((warmupLoop n perform (a + 1) r).1,
          WarmupAction.call a :: (warmupLoop n perform (a + 1) r).2)
      else (false, [WarmupAction.call a]) := by
  simp only [warmupLoop, h]

theorem warmupLoop_succ_other (n : Nat) (perform : Nat → HttpResult Unit)
    (a r : Nat) (e : PyExc) (h : httpCall (perform a) = Except.error e)
    (he : ∀ s, e ≠ PyExc.httpError s) :
    warmupLoop n perform a (r + 1) =
      if a < n - 1 then
        ((warmupLoop n perform (a + 1) r).1,
          WarmupAction.call a :: WarmupAction.sleep ::
            (warmupLoop n perform (a + 1) r).2)
      else (false, [WarmupAction.call a]) := by
  cases e
  case httpError s => exact absurd rfl (he s)
  all_goals simp only [warmupLoop, h]

theorem warmupLoop_retryable_step (n : Nat) (perform : Nat → HttpResult Unit)
    (a r : Nat) (hret : isRetryableFailure (perform a) = true) :
    warmupLoop n perform a (r + 1) =
      if a < n - 1 then
        ((warmupLoop n perform (a + 1) r).1,
          retryTrace (perform a) a ++ (warmupLoop n perform (a + 1) r).2)
      else (false, [WarmupAction.call a]) := by
  cases hp : perform a with
  | response s b =>
    have hs : s = 502 ∨ s = 504 := by
      rw [hp] at hret
      simpa [isRetryableFailure] using hret
    have hh : httpCall (perform a) = Except.error (PyExc.httpError s) := by
      rw [hp]
      rcases hs with rfl | rfl <;> rfl
    rw [warmupLoop_succ_httpError n perform a r s hh]
    by_cases hlt : a < n - 1
    · rw [if_pos ⟨hs, hlt⟩, if_pos hlt]
      rfl
    · rw [if_neg (fun hc => hlt hc.2), if_neg hlt]
  | timeout =>
    have hh : httpCall (perform a) = Except.error PyExc.timeout := by
      rw [hp]
      rfl
    rw [warmupLoop_succ_other n perform a r _ hh (fun s h => by cases h)]
    rfl
  | connectionError =>
    have hh : httpCall (perform a) = Except.error PyExc.connectionError := by
      rw [hp]
      rfl
    rw [warmupLoop_succ_other n perform a r _ hh (fun s h => by cases h)]
    rfl
  | chunkedEncodingError =>
    have hh : httpCall (perform a) = Except.error PyExc.chunkedEncodingError := by
      rw [hp]
      rfl
    rw [warmupLoop_succ_other n perform a r _ hh (fun s h => by cases h)]
    rfl
  | incompleteRead =>
    have hh : httpCall (perform a) = Except.error PyExc.incompleteRead := by
      rw [hp]
      rfl
    rw [warmupLoop_succ_other n perform a r _ hh (fun s h => by cases h)]
    rfl
  | otherError =>
    rw [hp] at hret
    simp [isRetryableFailure] at hret

theorem warmupLoop_all_retryable (n : Nat) (perform : Nat → HttpResult Unit)
    (hall : ∀ k, isRetryableFailure (perform k) = true) :
    ∀ r a, a + r = n → 1 ≤ r →
      (warmupLoop n perform a r).1 = false ∧
      countCalls (warmupLoop n perform a r).2 = r := by
  intro r
  induction r with
  | zero => intro a _ h1; omega
  | succ r ih =>
    intro a hsum _
    rw [warmupLoop_retryable_step n perform a r (hall a)]
    rcases Nat.eq_zero_or_pos r with hr | hr
    · subst hr
      rw [if_neg (by omega)]
      exact ⟨rfl, rfl⟩
    · rw [if_pos (by omega)]
      obtain ⟨ih1, ih2⟩ := ih (a + 1) (by omega) hr
      refine ⟨ih1, ?_⟩
      show countCalls (retryTrace (perform a) a ++
        (warmupLoop n perform (a + 1) r).2) = r + 1
      rw [countCalls_retryTrace, ih2]

theorem warmupLoop_fail_then_success (n : Nat) (perform : Nat → HttpResult Unit)
    (hfail : ∀ k, k < n - 1 → isRetryableFailure (perform k) = true)
    (hsucc : httpCall (perform (n - 1)) = Except.ok ()) :
    ∀ r a, a + r = n → 1 ≤ r →
      (warmupLoop n perform a r).1 = true ∧
      countCalls (warmupLoop n perform a r).2 = r := by
  intro r
  induction r with
  | zero => intro a _ h1; omega
  | succ r ih =>
    intro a hsum _
    rcases Nat.eq_zero_or_pos r with hr | hr
    · subst hr
      have ha : a = n - 1 := by omega
      subst ha
      rw [warmupLoop_succ_ok n perform (n - 1) 0 hsucc]
      exact ⟨rfl, rfl⟩
    · have hlt : a < n - 1 := by omega
      rw [warmupLoop_retryable_step n perform a r (hfail a hlt), if_pos hlt]
      obtain ⟨ih1, ih2⟩ := ih (a + 1) (by omega) hr
      refine ⟨ih1, ?_⟩
      show countCalls (retryTrace (perform a) a ++
        (warmupLoop n perform (a + 1) r).2) = r + 1
      rw [countCalls_retryTrace, ih2]

theorem foldl_observe_total (l : List Bool) :
    ∀ init : Summary,
      (l.foldl observe init).succeeded + (l.foldl observe init).failed
        = init.succeeded + init.failed + l.length := by
  induction l with
  | nil => intro init; simp
  | cons b rest ih =>
    intro init
    simp only [List.foldl_cons, List.length_cons, ih (observe init b)]
    cases b <;> simp [observe] <;> omega

theorem foldl_observe_false (l : List Bool) (hl : ∀ b ∈ l, b = false) :
    ∀ init : Summary,
      l.foldl observe init = { init with failed := init.failed + l.length } := by
  induction l with
  | nil => intro init; simp
  | cons b rest ih =>
    intro init
    have hb : b = false := hl b (List.mem_cons_self b rest)
    subst hb
    rw [List.foldl_cons,
      show observe init false = { init with failed := init.failed + 1 } from rfl,
      ih (fun x hx => hl x (List.mem_cons_of_mem _ hx))]
    simp only [List.length_cons, Summary.mk.injEq, true_and]
    omega

theorem runSummary_map_false {α : Type} (l : List α) :
    runSummary (l.map fun _ => false)
      = { succeeded := 0, failed := l.length } := by
  rw [runSummary, foldl_observe_false _ (by simp)]
  simp

theorem fetchRangeGo_congr (w w' : Nat → HttpResult StorageObject)
    (h : ∀ j, fetch_object (w j) = fetch_object (w' j)) :
    ∀ (l : List Nat) (acc : List StorageObject),
      fetchRangeGo w l acc = fetchRangeGo w' l acc := by
  intro l
  induction l with
  | nil => intro acc; rfl
  | cons j rest ih =>
    intro acc
    simp only [fetchRangeGo, h j]
    cases fetch_object (w' j) with
    | raised s => rfl
    | absent => exact ih acc
    | found obj =>
      show (if obj.collection_id = "oneal_catalog" then fetchRangeGo w rest (obj :: acc)
          else fetchRangeGo w rest acc)
        = (if obj.collection_id = "oneal_catalog" then fetchRangeGo w' rest (obj :: acc)
          else fetchRangeGo w' rest acc)
      by_cases hc : obj.collection_id = "oneal_catalog"
      · rw [if_pos hc, if_pos hc]
        exact ih _
      · rw [if_neg hc, if_neg hc]
        exact ih _

/- ------------------------------------------------------------------
   Claim theorems
   ------------------------------------------------------------------ -/

/-- C1: for every run over N submitted descriptors, the final summary
satisfies succeeded + failed = N — each descriptor contributes exactly one
outcome and the counting loop counts it exactly once, whatever the
completion (arrival) order of the futures. -/
theorem summary_counts_conserved (descriptors : List Nat) (result : Nat → Bool)
    (arrival : List Bool) (h : arrival.Perm (descriptors.map result)) :
    (runSummary arrival).succeeded + (runSummary arrival).failed
      = descriptors.length := by
  have hlen : arrival.length = descriptors.length := by
    simpa using h.length_eq
  simp only [runSummary]
  rw [foldl_observe_total arrival { succeeded := 0, failed := 0 }]
  show 0 + 0 + arrival.length = descriptors.length
  omega

/-- Witness for C1 at a concrete run: three descriptors, one failure, an
arrival order differing from submission order. -/
theorem summary_counts_conserved_witness :
    (runSummary [true, false, true]).succeeded
      + (runSummary [true, false, true]).failed = 3 :=
  summary_counts_conserved [10, 11, 12] (fun i => decide (11 ≤ i))
    [true, false, true] (by decide)

/-- C2: in any run of the fixed-size worker pool
(`ThreadPoolExecutor(max_workers=workers)`), every reachable state has at
most `workers` descriptors in flight, however many descriptors are queued:
a call starts only when one of the `workers` threads is free. -/
theorem pool_inflight_bounded (workers : Nat) (descriptors : List Nat)
    (s : PoolState) (h : poolReachable workers descriptors s) :
    s.inFlight.length ≤ workers := by
  induction h with
  | refl => simp
  | tail _ step ih =>
    cases step with
    | start d rest hp hlt => exact hlt
    | finish d hd =>
      exact le_trans (List.Sublist.length_le (List.erase_sublist _ _)) ih

/-- Witness for C2: the trigger script's pool of 5 workers after starting the
first of three descriptors. -/
theorem pool_inflight_bounded_witness :
    (PoolState.mk [2, 3] [1] []).inFlight.length ≤ trigger_workers :=
  pool_inflight_bounded trigger_workers [1, 2, 3] _
    (Relation.ReflTransGen.single
      (PoolStep.start { pending := [1, 2, 3], inFlight := [], completed := [] }
        1 [2, 3] rfl (by decide)))

/-- C3 counterexample: a `perform` that always fails with an uncategorized
(non-retryable per the claim) error does NOT yield Failure after 1 attempt in
`warmup_image`: the bare `except Exception` handler retries it like a
transient error, so all 3 attempts are made (3 calls, with sleeps between). -/
theorem uncategorized_error_retried_cx :
    warmup_image (fun _ => HttpResult.otherError)
      = (false, [WarmupAction.call 0, WarmupAction.sleep, WarmupAction.call 1,
          WarmupAction.sleep, WarmupAction.call 2]) ∧
    countCalls (warmup_image (fun _ => HttpResult.otherError)).2 = 3 :=
  ⟨rfl, rfl⟩

/-- C3 (amended): a `perform` that fails with a non-retryable HTTP status
error (a 4xx/5xx other than 502/504) is terminal immediately: `warmup_image`
returns Failure after exactly 1 attempt, invoking `perform` only once; and in
`trigger_embedding` every failure of any kind is terminal after its single
attempt. Uncategorized (non-HTTP) exceptions, however, are retried by
`warmup_image` up to `max_retries` attempts (see the counterexample). -/
theorem nonretryable_http_terminal_one_attempt (n : Nat)
    (perform : Nat → HttpResult Unit) (s oid : Nat) (resp : HttpResult Unit)
    (e : PyExc) (hn : 1 ≤ n) (h0 : perform 0 = HttpResult.response s ())
    (h4 : 400 ≤ s) (h5 : s ≤ 599) (h502 : s ≠ 502) (h504 : s ≠ 504)
    (he : httpCall resp = Except.error e) :
    warmup_image_retries n perform = (false, [WarmupAction.call 0]) ∧
    trigger_embedding resp oid = (false, oid) := by
  constructor
  · have hh : httpCall (perform 0) = Except.error (PyExc.httpError s) := by
      rw [h0]
      show (if 400 ≤ s ∧ s ≤ 599 then Except.error (PyExc.httpError s)
          else Except.ok ()) = _
      rw [if_pos ⟨h4, h5⟩]
    obtain ⟨m, rfl⟩ : ∃ m, n = m + 1 := ⟨n - 1, by omega⟩
    show warmupLoop (m + 1) perform 0 (m + 1) = (false, [WarmupAction.call 0])
    rw [warmupLoop_succ_httpError (m + 1) perform 0 m s hh,
      if_neg (fun hc => hc.1.elim h502 h504)]
  · simp [trigger_embedding, he]

/-- Witness for the amended C3: a plain 500 error is terminal on the first
attempt in both executors. -/
theorem nonretryable_http_terminal_one_attempt_witness :
    warmup_image_retries 3 (fun _ => HttpResult.response 500 ())
      = (false, [WarmupAction.call 0]) ∧
    trigger_embedding (HttpResult.response 500 ()) 5 = (false, 5) :=
  nonretryable_http_terminal_one_attempt 3 (fun _ => HttpResult.response 500 ())
    500 5 (HttpResult.response 500 ()) (PyExc.httpError 500) (by decide) rfl
    (by decide) (by decide) (by decide) (by decide) rfl

/-- C4: a `perform` that always fails with a retryable error (502/504
gateway status, timeout, connection reset, truncated read) makes the
executor invoke it exactly `max_attempts` times (`n` here, `max_retries = 3`
in the script) and return Failure; `trigger_embedding`, whose `max_attempts`
is 1, likewise returns Failure after its single attempt. -/
theorem always_retryable_exhausts_attempts (n : Nat)
    (perform : Nat → HttpResult Unit) (resp : HttpResult Unit) (oid : Nat)
    (hn : 1 ≤ n) (hall : ∀ k, isRetryableFailure (perform k) = true)
    (hresp : isRetryableFailure resp = true) :
    (warmup_image_retries n perform).1 = false ∧
    countCalls (warmup_image_retries n perform).2 = n ∧
    trigger_embedding resp oid = (false, oid) := by
  obtain ⟨h1, h2⟩ := warmupLoop_all_retryable n perform hall n 0 (by omega) hn
  refine ⟨h1, h2, ?_⟩
  cases resp with
  | response s b =>
    have hs : s = 502 ∨ s = 504 := by simpa [isRetryableFailure] using hresp
    rcases hs with rfl | rfl <;> rfl
  | timeout => rfl
  | connectionError => rfl
  | chunkedEncodingError => rfl
  | incompleteRead => rfl
  | otherError => simp [isRetryableFailure] at hresp

/-- Witness for C4: always-502 exhausts both attempts of a 2-attempt
executor; a timeout fails `trigger_embedding` at its single attempt. -/
theorem always_retryable_exhausts_attempts_witness :
    (warmup_image_retries 2 (fun _ => HttpResult.response 502 ())).1 = false ∧
    countCalls (warmup_image_retries 2 (fun _ => HttpResult.response 502 ())).2 = 2 ∧
    trigger_embedding HttpResult.timeout 7 = (false, 7) :=
  always_retryable_exhausts_attempts 2 (fun _ => HttpResult.response 502 ())
    HttpResult.timeout 7 (by decide) (fun _ => rfl) rfl

/-- C5: a `perform` that fails with a retryable error on every attempt
before the last and succeeds on attempt `n - 1` yields Success with exactly
`n` invocations; the first success returns immediately, so no further call
appears in the trace whatever `perform` would do afterwards. -/
theorem retryable_then_success_stops (n : Nat)
    (perform : Nat → HttpResult Unit) (hn : 1 ≤ n)
    (hfail : ∀ k, k < n - 1 → isRetryableFailure (perform k) = true)
    (hsucc : httpCall (perform (n - 1)) = Except.ok ()) :
    (warmup_image_retries n perform).1 = true ∧
    countCalls (warmup_image_retries n perform).2 = n :=
  warmupLoop_fail_then_success n perform hfail hsucc n 0 (by omega) hn

/-- Witness for C5: two timeouts then a 200 response at `max_retries = 3`. -/
theorem retryable_then_success_stops_witness :
    (warmup_image_retries 3
      (fun k => if k = 2 then HttpResult.response 200 () else HttpResult.timeout)).1
        = true ∧
    countCalls (warmup_image_retries 3
      (fun k => if k = 2 then HttpResult.response 200 () else HttpResult.timeout)).2
        = 3 :=
  retryable_then_success_stops 3
    (fun k => if k = 2 then HttpResult.response 200 () else HttpResult.timeout)
    (by decide)
    (fun k hk => by
      have hne : k ≠ 2 := by omega
      show isRetryableFailure
        (if k = 2 then HttpResult.response 200 () else HttpResult.timeout) = true
      rw [if_neg hne]
      rfl)
    rfl

/-- C6: inside the retry loop, a retryable failure at a non-final attempt
contributes `retryTrace (perform a) a` to the trace before the next call:
for a gateway-class HTTP error (502/504, the only retryable `HTTPError`s)
that is just the call with no sleep, while for every transport-level failure
it is the call followed by a `time.sleep(1.0)`. -/
theorem gateway_immediate_transport_sleeps (n : Nat)
    (perform : Nat → HttpResult Unit) (a r : Nat) (hlt : a < n - 1)
    (hret : isRetryableFailure (perform a) = true) :
    (warmupLoop n perform a (r + 1)).2
      = retryTrace (perform a) a ++ (warmupLoop n perform (a + 1) r).2 := by
  rw [warmupLoop_retryable_step n perform a r hret, if_pos hlt]

/-- Witness for C6: a 502 at attempt 0 of 3 retries with no sleep
(`retryTrace` of a response is the bare call). -/
theorem gateway_immediate_transport_sleeps_witness :
    (warmupLoop 3 (fun _ => HttpResult.response 502 ()) 0 2).2
      = retryTrace (HttpResult.response 502 ()) 0
        ++ (warmupLoop 3 (fun _ => HttpResult.response 502 ()) 1 1).2 :=
  gateway_immediate_transport_sleeps 3 (fun _ => HttpResult.response 502 ())
    0 1 (by decide) rfl

/-- C7: an unexpected, non-classified error inside `perform` is converted to
a Failure outcome for the descriptor instead of propagating: both executors
catch every exception kind (trigger_embedding via its bare `except
Exception`, warmup_image via its final handler after the retries), and a run
in which every item fails still completes with a full summary whose `failed`
count equals the number of dispatched items. -/
theorem unexpected_fault_absorbed (oid : Nat) (objects : List StorageObject)
    (args : WarmupArgs) (products : List Product)
    (hmiss : missing_analysis objects ≠ [])
    (hentries : collect_media_entries products ≠ []) :
    trigger_embedding HttpResult.otherError oid = (false, oid) ∧
    (warmup_image (fun _ => HttpResult.otherError)).1 = false ∧
    trigger_main objects (fun _ => false)
      = RunResult.completed
          { succeeded := 0, failed := (missing_analysis objects).length } ∧
    warmup_main args products (fun _ => false)
      = RunResult.completed
          { succeeded := 0,
            failed := (warmup_tasks (collect_media_entries products)
              (warmup_sizes args.no_highres)).length } := by
  refine ⟨rfl, rfl, ?_, ?_⟩
  · have hobj : objects ≠ [] := by
      intro h
      subst h
      exact hmiss rfl
    have h1 : objects.isEmpty = false := by
      cases objects with
      | nil => exact absurd rfl hobj
      | cons a l => rfl
    have h2 : (missing_analysis objects).isEmpty = false := by
      cases hm : missing_analysis objects with
      | nil => exact absurd hm hmiss
      | cons a l => rfl
    simp only [trigger_main, h1, h2, Bool.false_eq_true, if_false,
      runSummary_map_false]
  · have h2 : (collect_media_entries products).isEmpty = false := by
      cases hm : collect_media_entries products with
      | nil => exact absurd hm hentries
      | cons a l => rfl
    simp only [warmup_main, h2, Bool.false_eq_true, if_false,
      runSummary_map_false]

/-- Witness for C7: one missing object, one media entry with both sizes,
everything failing. -/
theorem unexpected_fault_absorbed_witness :
    trigger_embedding HttpResult.otherError 9 = (false, 9) ∧
    (warmup_image (fun _ => HttpResult.otherError)).1 = false ∧
    trigger_main [sample_missing_obj] (fun _ => false)
      = RunResult.completed { succeeded := 0, failed := 1 } ∧
    warmup_main sample_args [sample_product] (fun _ => false)
      = RunResult.completed { succeeded := 0, failed := 2 } :=
  unexpected_fault_absorbed 9 [sample_missing_obj] sample_args
    [sample_product] (by decide) (by decide)

/-- C8 counterexample: in warmup_image_cache.py a run with zero discoverable
candidates (no storage-backed media at all) does not take a failure/abort
path: `main` plain-returns before dispatch, the same no-op success shape the
claim reserves for the all-satisfied case, not an abort. -/
theorem warmup_empty_candidates_noop_cx :
    warmup_main sample_args [] (fun _ => false) = RunResult.noop ∧
    RunResult.noop ≠ RunResult.aborted 1 :=
  ⟨rfl, by decide⟩

/-- C8 (amended): in trigger_missing_embeddings.py, zero discoverable objects
abort the run with `sys.exit(1)` before any dispatch, and a nonempty object
list whose members all have full AI analysis takes the no-op success path;
in warmup_image_cache.py, however, an empty candidate (media-entry) set takes
a no-op success path too (a plain `return` before dispatch), not a distinct
failure/abort path. -/
theorem empty_and_satisfied_paths (objects : List StorageObject)
    (embedResult : Nat → Bool) (args : WarmupArgs) (products : List Product)
    (performResult : WarmupTask → Bool) (hne : objects ≠ [])
    (hall : ∀ o ∈ objects, has_full_ai_analysis o = true)
    (hmedia : collect_media_entries products = []) :
    trigger_main [] embedResult = RunResult.aborted 1 ∧
    trigger_main objects embedResult = RunResult.noop ∧
    warmup_main args products performResult = RunResult.noop := by
  refine ⟨rfl, ?_, ?_⟩
  · have h1 : objects.isEmpty = false := by
      cases objects with
      | nil => exact absurd rfl hne
      | cons a l => rfl
    have hfil : objects.filter (fun o => !(has_full_ai_analysis o)) = [] := by
      apply List.filter_eq_nil_iff.mpr
      intro a ha
      simp [hall a ha]
    have h2 : (missing_analysis objects).isEmpty = true := by
      simp [missing_analysis, hfil]
    simp only [trigger_main, h1, Bool.false_eq_true, if_false, h2, if_true]
  · simp only [warmup_main, hmedia, List.isEmpty_nil, if_true]

/-- Witness for the amended C8: a fully analysed object list and an empty
product list. -/
theorem empty_and_satisfied_paths_witness :
    trigger_main [] (fun _ => true) = RunResult.aborted 1 ∧
    trigger_main [sample_full_obj] (fun _ => true) = RunResult.noop ∧
    warmup_main sample_args_lowres [] (fun _ => true) = RunResult.noop :=
  empty_and_satisfied_paths [sample_full_obj] (fun _ => true)
    sample_args_lowres [] (fun _ => true) (by decide) (by decide) rfl

/-- C9 counterexample: a non-2xx status that `raise_for_status` does not
flag — here 304 — is not propagated as an error by `fetch_object`: the
response body is returned as a found object. -/
theorem fetch_object_redirect_status_cx :
    fetch_object (HttpResult.response 304 sample_obj)
      = FetchOutcome.found sample_obj ∧
    FetchOutcome.found sample_obj ≠ FetchOutcome.raised 304 :=
  ⟨rfl, by decide⟩

/-- C9 (amended): `fetch_object` treats a 404 as legitimate absence
(returns `None`, not an error) and propagates every other HTTP-error status
(4xx/5xx other than 404) as an error; statuses `raise_for_status` does not
flag (outside 400-599) are treated as success, not as errors. -/
theorem fetch_object_404_vs_error (s : Nat) (b b' : StorageObject)
    (h4 : 400 ≤ s) (h5 : s ≤ 599) (hs : s ≠ 404) :
    fetch_object (HttpResult.response 404 b') = FetchOutcome.absent ∧
    fetch_object (HttpResult.response s b) = FetchOutcome.raised s := by
  refine ⟨rfl, ?_⟩
  have hh : httpCall (HttpResult.response s b)
      = Except.error (PyExc.httpError s) := by
    show (if 400 ≤ s ∧ s ≤ 599 then Except.error (PyExc.httpError s)
        else Except.ok b) = _
    rw [if_pos ⟨h4, h5⟩]
  simp only [fetch_object, hh]
  rw [if_neg hs]

/-- Witness for the amended C9 at statuses 404 and 500. -/
theorem fetch_object_404_vs_error_witness :
    fetch_object (HttpResult.response 404 sample_obj) = FetchOutcome.absent ∧
    fetch_object (HttpResult.response 500 sample_obj)
      = FetchOutcome.raised 500 :=
  fetch_object_404_vs_error 500 sample_obj sample_obj (by decide) (by decide)
    (by decide)

/-- C10: any non-HTTPError exception during an id probe — timeout,
connection error, chunked-encoding error, truncated read, or any other
uncategorized exception — makes `fetch_object` return `None`, exactly as a
404 absence does, so the whole range probe is indistinguishable from one in
which that id simply does not exist: the candidate set silently shrinks
instead of surfacing an error. -/
theorem transport_error_indistinguishable_from_absence
    (world : Nat → HttpResult StorageObject) (i : Nat) (b : StorageObject)
    (start_id end_id : Nat)
    (h : world i = HttpResult.timeout ∨ world i = HttpResult.connectionError ∨
         world i = HttpResult.chunkedEncodingError ∨
         world i = HttpResult.incompleteRead ∨
         world i = HttpResult.otherError) :
    fetch_object (world i) = FetchOutcome.absent ∧
    fetch_all_objects_by_range world start_id end_id
      = fetch_all_objects_by_range
          (Function.update world i (HttpResult.response 404 b))
          start_id end_id := by
  have habs : fetch_object (world i) = FetchOutcome.absent := by
    rcases h with h | h | h | h | h <;> rw [h] <;> rfl
  refine ⟨habs, ?_⟩
  unfold fetch_all_objects_by_range
  apply fetchRangeGo_congr
  intro j
  by_cases hj : j = i
  · subst hj
    rw [Function.update_same, habs]
    rfl
  · rw [Function.update_noteq hj]

/-- Witness for C10: id 2 times out in `probe_world`; the probe of ids 1-3
equals the probe of the world where id 2 is a plain 404. -/
theorem transport_error_indistinguishable_witness :
    fetch_object (probe_world 2) = FetchOutcome.absent ∧
    fetch_all_objects_by_range probe_world 1 3
      = fetch_all_objects_by_range
          (Function.update probe_world 2 (HttpResult.response 404 sample_obj))
          1 3 :=
  transport_error_indistinguishable_from_absence probe_world 2 sample_obj 1 3
    (Or.inl rfl)

end ProductFinder
